import Mathlib

/-!
Verification development for the ESP32 BLE master/slave counter-sync firmware
(src/BLESync.cpp, src/main.cpp). The module-level C++ state is embedded as a
`NodeState` record; each handler and loop action becomes a state transformer.
Callback functions additionally return the list of radio-facade effects they
perform, so that the callback contract can be examined. Machine integers
(`uint32_t`, ESP32 `unsigned long`) are modelled as `Nat` reduced mod `2 ^ 32`
exactly where the C code wraps.
-/

namespace BLESync

/-- `2 ^ 32`, the modulus of `uint32_t` / ESP32 `unsigned long` arithmetic. -/
def U32 : Nat := 4294967296

/-- `COUNTER_INTERVAL` (ms), BLESync.cpp line 19. -/
def COUNTER_INTERVAL : Nat := 3000

/-- `SYNC_INTERVAL` (ms), BLESync.cpp line 20. -/
def SYNC_INTERVAL : Nat := 10000

/-- `CONNECTION_TIMEOUT` (ms), BLESync.cpp line 24. -/
def CONNECTION_TIMEOUT : Nat := 10000

/-- The two roles a node can take once `roleAssigned` is set. -/
inductive Role where
  | MASTER
  | CLIENT
deriving DecidableEq, Repr

/-- Little-endian decoding of four bytes into a `uint32_t`, as done by the
`memcpy` calls into `uint32_t` fields. Each byte is a value below 256; the
`% 256` makes the decoder total on arbitrary `Nat` inputs. -/
def le32 (b0 b1 b2 b3 : Nat) : Nat :=
  b0 % 256 + 256 * (b1 % 256) + 65536 * (b2 % 256) + 16777216 * (b3 % 256)

/-- The `uint32_t` stored little-endian at offset `i` of a byte list. -/
def u32At (bs : List Nat) (i : Nat) : Nat :=
  le32 (bs.getD i 0) (bs.getD (i + 1) 0) (bs.getD (i + 2) 0) (bs.getD (i + 3) 0)

/-- The eight bytes read by `memcpy(&syncPacket, value.data(), 8)` in
`MySyncCallback::onWrite` (BLESync.cpp line 129). The copy length is a fixed 8:
when the written payload is shorter, the bytes past its end come from whatever
memory follows the payload buffer (`mem`). -/
def readBytes8 (value mem : List Nat) : List Nat :=
  (value ++ mem ++ List.replicate 8 0).take 8

/-- `counter` field of a decoded sync packet (first four bytes). -/
def pktCounter (bs : List Nat) : Nat := u32At bs 0

/-- `timeSinceLastUpdate` field of a decoded sync packet (last four bytes). -/
def pktDelta (bs : List Nat) : Nat := u32At bs 4

/-- The remote uptime decoded from the 4-byte timestamp characteristic value
(`memcpy(&remoteUptime, remoteTimestampData.data(), 4)`, BLESync.cpp 275). -/
def tsUptime (d : List Nat) : Nat := u32At d 0

/-- A radio (MAC) address rendered as the byte sequence of its textual form.
The Arduino `String` comparison used by the source is `strcmp`, i.e. the
lexicographic order on these byte sequences, which is the lexicographic list
order. -/
abbrev Mac := List Nat

/-- The role decision of `connectToServer` (BLESync.cpp lines 279-299): larger
current uptime wins MASTER; on a tie the lexically smaller MAC wins
MASTER, otherwise the node is CLIENT. -/
def decideRole (localUptime remoteUptime : Nat) (localMac remoteMac : Mac) : Role :=
  if localUptime > remoteUptime then Role.MASTER
  else if localUptime < remoteUptime then Role.CLIENT
  else if localMac < remoteMac then Role.MASTER
  else Role.CLIENT

/-- The module-level mutable state of BLESync.cpp (lines 27-65). Pointers are
modelled by whether they are non-null: `pClient` and the four remote GATT
handles become `Bool`; the held peer record `targetDevice` becomes an optional
MAC address string. `localMac` is the node's own radio address
(`BLEDevice::getAddress()`), fixed for the node's lifetime. -/
structure NodeState where
  localMac : Mac
  localCounter : Nat
  remoteCounter : Nat
  lastCounterUpdate : Nat
  tsChar : Nat
  isMaster : Bool
  isClient : Bool
  roleAssigned : Bool
  serverConnected : Bool
  clientConnected : Bool
  doConnect : Bool
  doScan : Bool
  doRoleNegotiation : Bool
  pClient : Bool
  pRemoteService : Bool
  pRemoteCounterChar : Bool
  pRemoteSyncChar : Bool
  pRemoteTimestampChar : Bool
  targetDevice : Option Mac
  randomScanDelay : Nat
  scanDelayStart : Nat
deriving DecidableEq, Repr

/-- Calls a callback makes back into the radio stack, plus explicit blocking
delays, recorded so the callback contract can be stated. -/
inductive Effect where
  | scanStop
  | advertisingStart
  | setCharValue
  | delayMs (ms : Nat)
deriving DecidableEq, Repr

/-- State after `BLESync_setup` (BLESync.cpp lines 410-423): counters zero, no
roles, no connections, no held pointers, and `doScan = true`. -/
def initialState (mac : Mac) : NodeState where
  localMac := mac
  localCounter := 0
  remoteCounter := 0
  lastCounterUpdate := 0
  tsChar := 0
  isMaster := false
  isClient := false
  roleAssigned := false
  serverConnected := false
  clientConnected := false
  doConnect := false
  doScan := true
  doRoleNegotiation := false
  pClient := false
  pRemoteService := false
  pRemoteCounterChar := false
  pRemoteSyncChar := false
  pRemoteTimestampChar := false
  targetDevice := none
  randomScanDelay := 0
  scanDelayStart := 0

/-- `MyServerCallbacks::onConnect` (BLESync.cpp lines 69-75): set the connected
flag, restamp the timestamp characteristic with the current uptime, and raise
the role-negotiation flag. `setValue` on the characteristic is a facade call. -/
def serverOnConnectE (s : NodeState) (now : Nat) : NodeState × List Effect :=
  ({ s with serverConnected := true, tsChar := now % U32, doRoleNegotiation := true },
   [Effect.setCharValue])

/-- `MyServerCallbacks::onDisconnect` (BLESync.cpp lines 76-89): clear
`serverConnected`; if the node held the MASTER role, clear the role flags and
schedule the random rescan jitter (`j` stands for `random(200, 1200)`); always
restart advertising from callback context. -/
def serverOnDisconnectE (s : NodeState) (j now : Nat) : NodeState × List Effect :=
  let s1 := { s with serverConnected := false }
  let s2 :=
    if s1.roleAssigned && s1.isMaster then
      { s1 with roleAssigned := false, isMaster := false, isClient := false,
                randomScanDelay := j, scanDelayStart := now % U32 }
    else s1
  (s2, [Effect.advertisingStart])

/-- `MyClientCallback::onDisconnect` (BLESync.cpp lines 97-118): clear
`clientConnected`; if a role was assigned, clear the role flags and schedule
jitter; null the four remote handles; free the peer record; restart
advertising. The client object `pClient` is not freed here. -/
def clientOnDisconnectE (s : NodeState) (j now : Nat) : NodeState × List Effect :=
  let s1 := { s with clientConnected := false }
  let s2 :=
    if s1.roleAssigned then
      { s1 with roleAssigned := false, isMaster := false, isClient := false,
                randomScanDelay := j, scanDelayStart := now % U32 }
    else s1
  ({ s2 with pRemoteService := false, pRemoteCounterChar := false,
             pRemoteSyncChar := false, pRemoteTimestampChar := false,
             targetDevice := none },
   [Effect.advertisingStart])

/-- `MySyncCallback::onWrite` (BLESync.cpp lines 122-139): unconditionally
`memcpy` 8 bytes out of the written value (no length check — a short payload
makes the copy read past its end into `mem`), overwrite `localCounter` with the
packet counter, and set `lastCounterUpdate := millis() - timeSinceLastUpdate`
in 32-bit unsigned arithmetic. Performs no facade call and no delay. -/
def syncOnWriteE (s : NodeState) (value mem : List Nat) (now : Nat) :
    NodeState × List Effect :=
  let bs := readBytes8 value mem
  ({ s with localCounter := pktCounter bs,
            lastCounterUpdate := (now % U32 + U32 - pktDelta bs) % U32 },
   [])

/-- `MyAdvertisedDeviceCallbacks::onResult` (BLESync.cpp lines 143-166) for an
advertisement carrying our service UUID (`hasService`): when not already
properly connected, stop the scan, replace the held peer record, block for
1000 ms when the local MAC is smaller than the peer's, and set `doConnect`. -/
def onResultE (s : NodeState) (hasService : Bool) (remoteMac : Mac) :
    NodeState × List Effect :=
  if hasService then
    if !s.clientConnected || (s.serverConnected && !s.roleAssigned) then
      ({ s with targetDevice := some remoteMac, doConnect := true, doScan := false },
       Effect.scanStop ::
         (if s.localMac < remoteMac then [Effect.delayMs 1000] else []))
    else (s, [])
  else (s, [])

/-- `performRoleNegotiation` (BLESync.cpp lines 208-222): a no-op unless a
server connection exists without an assigned role, in which case the inbound
connection is force-dropped, all role state cleared and a scan requested. -/
def performRoleNegotiation (s : NodeState) : NodeState :=
  if !s.serverConnected || s.roleAssigned then s
  else
    { s with serverConnected := false, roleAssigned := false,
             isMaster := false, isClient := false, doScan := true }

/-- Outcomes the platform supplies to one run of `connectToServer`: whether
`connect` succeeded, whether the service and the three characteristics were
found, the bytes returned by the remote-timestamp read, and `millis()` at the
instant of the role decision. -/
structure ConnectEnv where
  connectOk : Bool
  serviceFound : Bool
  counterCharFound : Bool
  syncCharFound : Bool
  tsCharFound : Bool
  tsData : List Nat
  localUptime : Nat
deriving Repr

/-- The cleanup block repeated on every failure path of `connectToServer`
(BLESync.cpp lines 238-242, 249-254, 263-268, 303-308): delete the client
object, clear `doConnect`, request a new scan, return `false`. The peer record
`targetDevice` is not touched. -/
def connFail (s : NodeState) : NodeState :=
  { s with pClient := false, doConnect := false, doScan := true }

/-- Writing the decided role into the flag pair (BLESync.cpp lines 280-298). -/
def applyRole (s : NodeState) : Role → NodeState
  | Role.MASTER => { s with isMaster := true, isClient := false }
  | Role.CLIENT => { s with isMaster := false, isClient := true }

/-- `connectToServer` (BLESync.cpp lines 224-326): allocate a fresh client,
connect, fetch service and characteristics, read the remote timestamp; on a
4-byte read decide the role with `decideRole`, set `roleAssigned`, and update
the connection flags for the decided role; on any failure run the cleanup
block and return `false`. -/
def connectToServer (s : NodeState) (env : ConnectEnv) : NodeState × Bool :=
  let s1 := { s with pClient := true }
  if !env.connectOk then (connFail s1, false)
  else
    let s2 := { s1 with pRemoteService := env.serviceFound }
    if !env.serviceFound then (connFail s2, false)
    else
      let s3 := { s2 with pRemoteCounterChar := env.counterCharFound,
                          pRemoteSyncChar := env.syncCharFound,
                          pRemoteTimestampChar := env.tsCharFound }
      if !(env.counterCharFound && env.syncCharFound && env.tsCharFound) then
        (connFail s3, false)
      else if env.tsData.length == 4 then
        let remoteUptime := tsUptime env.tsData
        let currentUptime := env.localUptime % U32
        let remoteMac := s3.targetDevice.getD []
        let s4 := applyRole s3 (decideRole currentUptime remoteUptime s3.localMac remoteMac)
        let s5 := { s4 with roleAssigned := true }
        if s5.isClient then
          ({ s5 with clientConnected := true, serverConnected := false, doScan := false },
           true)
        else if s5.isMaster then
          ({ s5 with doScan := false, clientConnected := true, doConnect := false },
           true)
        else (s5, true)
      else (connFail s3, false)

/-- `performSync` (BLESync.cpp lines 328-355). The MASTER branch only writes
the sync packet to the peer and changes no local state. The CLIENT branch
reads the remote counter (`readBytes` is the returned value); on a 4-byte read
it stores it in `remoteCounter` and adopts it into `localCounter` whenever the
two differ. -/
def performSync (s : NodeState) (readBytes : List Nat) : NodeState :=
  if s.clientConnected && s.pRemoteSyncChar && s.roleAssigned then
    if s.isMaster then s
    else if s.isClient then
      if readBytes.length == 4 then
        let rc := u32At readBytes 0
        let s1 := { s with remoteCounter := rc }
        if rc != s1.localCounter then { s1 with localCounter := rc } else s1
      else s
    else s
  else s

/-- `updateCounter` (BLESync.cpp lines 357-378): every branch performs exactly
`localCounter++` (the branches differ only in what they print). -/
def updateCounter (s : NodeState) : NodeState :=
  { s with localCounter := (s.localCounter + 1) % U32 }

/-- The tick action of `BLESync_loop` (lines 431-434): run `updateCounter`,
then set `lastCounterUpdate := currentTime`. -/
def tickCounter (s : NodeState) (now : Nat) : NodeState :=
  { updateCounter s with lastCounterUpdate := now % U32 }

/-- The loop's guard `currentTime - lastCounterUpdate >= COUNTER_INTERVAL`
(BLESync.cpp line 431) in 32-bit unsigned arithmetic. -/
def loopTickFires (currentTime lastCounterUpdate : Nat) : Bool :=
  COUNTER_INTERVAL ≤ (currentTime % U32 + U32 - lastCounterUpdate % U32) % U32

/-- The connect-timeout cleanup of `BLESync_loop` (lines 461-469): drop the
attempt, request a scan, free the peer record. -/
def connectAttemptTimeout (s : NodeState) : NodeState :=
  { s with doConnect := false, doScan := true, targetDevice := none }

/-- `resetConnectionState` (BLESync.cpp lines 380-408): free the client object
and peer record, null the remote handles, clear the connection flags, clear
the role if one was assigned, and request a scan. -/
def resetConnectionState (s : NodeState) : NodeState :=
  let s1 := { s with pClient := false, pRemoteService := false,
                     pRemoteCounterChar := false, pRemoteSyncChar := false,
                     pRemoteTimestampChar := false, targetDevice := none,
                     clientConnected := false, doConnect := false }
  let s2 :=
    if s1.roleAssigned then
      { s1 with roleAssigned := false, isMaster := false, isClient := false }
    else s1
  { s2 with doScan := true }

/-- The jitter-elapsed action of `BLESync_loop` (lines 498-503). -/
def scanDelayDone (s : NodeState) : NodeState :=
  { s with doScan := true, randomScanDelay := 0, scanDelayStart := 0 }

/-- One step of the node: any callback the radio stack can deliver, or any
action the supervisor loop can take. Guards record when the loop or stack can
actually fire the action: server disconnect needs a live server connection,
client disconnect a live client object, and `connectToServer` runs only with
`doConnect` set and a held peer record (the code dereferences it). -/
inductive Step : NodeState → NodeState → Prop where
  | advertResult (s : NodeState) (hasService : Bool) (rm : Mac) :
      Step s (onResultE s hasService rm).1
  | serverConnect (s : NodeState) (now : Nat) :
      Step s (serverOnConnectE s now).1
  | serverDisconnect (s : NodeState) (j now : Nat)
      (h : s.serverConnected = true) :
      Step s (serverOnDisconnectE s j now).1
  | clientDisconnect (s : NodeState) (j now : Nat)
      (h : s.pClient = true) :
      Step s (clientOnDisconnectE s j now).1
  | syncWrite (s : NodeState) (value mem : List Nat) (now : Nat) :
      Step s (syncOnWriteE s value mem now).1
  | roleNegotiation (s : NodeState) :
      Step s (performRoleNegotiation s)
  | connect (s : NodeState) (env : ConnectEnv)
      (h1 : s.doConnect = true) (h2 : s.targetDevice.isSome = true) :
      Step s (connectToServer s env).1
  | connectTimeout (s : NodeState) (h : s.doConnect = true) :
      Step s (connectAttemptTimeout s)
  | tick (s : NodeState) (now : Nat) :
      Step s (tickCounter s now)
  | syncAction (s : NodeState) (readBytes : List Nat) :
      Step s (performSync s readBytes)
  | reset (s : NodeState) :
      Step s (resetConnectionState s)
  | scanDelayElapsed (s : NodeState) :
      Step s (scanDelayDone s)

/-- States reachable from the post-setup state of some node. -/
inductive Reachable : NodeState → Prop where
  | init (mac : Mac) : Reachable (initialState mac)
  | step {s s' : NodeState} : Reachable s → Step s s' → Reachable s'

/-- Combined role/session invariant: the role flags never name both roles at
once, an unassigned role means both flags are clear, and an assigned role
implies a live client connection. -/
def Inv (s : NodeState) : Prop :=
  (s.isMaster && s.isClient) = false
  ∧ (s.roleAssigned = false → s.isMaster = false ∧ s.isClient = false)
  ∧ (s.roleAssigned = true → s.clientConnected = true)

lemma inv_onResultE (s : NodeState) (hs : Bool) (rm : Mac) (h : Inv s) :
    Inv (onResultE s hs rm).1 := by
  unfold onResultE
  split <;> [skip; exact h]
  split <;> [exact h; exact h]

lemma inv_serverOnConnectE (s : NodeState) (now : Nat) (h : Inv s) :
    Inv (serverOnConnectE s now).1 := h

lemma inv_serverOnDisconnectE (s : NodeState) (j now : Nat) (h : Inv s) :
    Inv (serverOnDisconnectE s j now).1 := by
  obtain ⟨h1, h2, h3⟩ := h
  simp only [serverOnDisconnectE, Inv]
  split
  · simp
  · exact ⟨h1, h2, h3⟩

lemma inv_clientOnDisconnectE (s : NodeState) (j now : Nat) (h : Inv s) :
    Inv (clientOnDisconnectE s j now).1 := by
  obtain ⟨h1, h2, h3⟩ := h
  simp only [clientOnDisconnectE, Inv]
  split
  · simp
  · refine ⟨h1, h2, fun hr => ?_⟩
    simp_all

lemma inv_syncOnWriteE (s : NodeState) (value mem : List Nat) (now : Nat)
    (h : Inv s) : Inv (syncOnWriteE s value mem now).1 := h

lemma inv_performRoleNegotiation (s : NodeState) (h : Inv s) :
    Inv (performRoleNegotiation s) := by
  unfold performRoleNegotiation Inv at *
  split
  · exact h
  · simp

lemma inv_connectToServer (s : NodeState) (env : ConnectEnv) (h : Inv s) :
    Inv (connectToServer s env).1 := by
  obtain ⟨h1, h2, h3⟩ := h
  simp only [connectToServer, Inv, connFail]
  split
  · exact ⟨h1, h2, h3⟩
  · split
    · exact ⟨h1, h2, h3⟩
    · split
      · exact ⟨h1, h2, h3⟩
      · split
        · cases hd : decideRole (env.localUptime % U32) (tsUptime env.tsData)
              s.localMac (s.targetDevice.getD []) <;>
            simp [applyRole, hd]
        · exact ⟨h1, h2, h3⟩

lemma inv_performSync (s : NodeState) (readBytes : List Nat) (h : Inv s) :
    Inv (performSync s readBytes) := by
  obtain ⟨h1, h2, h3⟩ := h
  simp only [performSync, Inv]
  split <;> [skip; exact ⟨h1, h2, h3⟩]
  split <;> [exact ⟨h1, h2, h3⟩; skip]
  split <;> [skip; exact ⟨h1, h2, h3⟩]
  split <;> [skip; exact ⟨h1, h2, h3⟩]
  split <;> exact ⟨h1, h2, h3⟩

lemma inv_tickCounter (s : NodeState) (now : Nat) (h : Inv s) :
    Inv (tickCounter s now) := h

lemma inv_connectAttemptTimeout (s : NodeState) (h : Inv s) :
    Inv (connectAttemptTimeout s) := h

lemma inv_resetConnectionState (s : NodeState) (h : Inv s) :
    Inv (resetConnectionState s) := by
  obtain ⟨h1, h2, h3⟩ := h
  simp only [resetConnectionState, Inv]
  split
  · simp
  · refine ⟨h1, h2, fun hr => ?_⟩
    simp_all

lemma inv_scanDelayDone (s : NodeState) (h : Inv s) :
    Inv (scanDelayDone s) := h

lemma inv_step {s s' : NodeState} (hstep : Step s s') (h : Inv s) : Inv s' := by
  cases hstep with
  | advertResult hs rm => exact inv_onResultE s hs rm h
  | serverConnect now => exact inv_serverOnConnectE s now h
  | serverDisconnect j now _ => exact inv_serverOnDisconnectE s j now h
  | clientDisconnect j now _ => exact inv_clientOnDisconnectE s j now h
  | syncWrite value mem now => exact inv_syncOnWriteE s value mem now h
  | roleNegotiation => exact inv_performRoleNegotiation s h
  | connect env _ _ => exact inv_connectToServer s env h
  | connectTimeout _ => exact inv_connectAttemptTimeout s h
  | tick now => exact inv_tickCounter s now h
  | syncAction readBytes => exact inv_performSync s readBytes h
  | reset => exact inv_resetConnectionState s h
  | scanDelayElapsed => exact inv_scanDelayDone s h

lemma inv_reachable {s : NodeState} (h : Reachable s) : Inv s := by
  induction h with
  | init mac => exact ⟨rfl, fun _ => ⟨rfl, rfl⟩, fun hc => by simp [initialState] at hc⟩
  | step _ hstep ih => exact inv_step hstep ih

/-- The state produced by the successful path of `connectToServer` (timestamp
read returned 4 bytes): client allocated, all remote handles held, the decided
role applied, `roleAssigned` set, and the role-specific flag updates. -/
def negotiationResult (s : NodeState) (env : ConnectEnv) (rm : Mac) : NodeState :=
  let s3 := { s with pClient := true, pRemoteService := true,
                     pRemoteCounterChar := true, pRemoteSyncChar := true,
                     pRemoteTimestampChar := true }
  let s4 := applyRole s3 (decideRole (env.localUptime % U32) (tsUptime env.tsData) s.localMac rm)
  let s5 := { s4 with roleAssigned := true }
  if s5.isClient then
    { s5 with clientConnected := true, serverConnected := false, doScan := false }
  else if s5.isMaster then
    { s5 with doScan := false, clientConnected := true, doConnect := false }
  else s5

lemma connectToServer_success (s : NodeState) (env : ConnectEnv)
    (hconn : env.connectOk = true) (hsvc : env.serviceFound = true)
    (hc1 : env.counterCharFound = true) (hc2 : env.syncCharFound = true)
    (hc3 : env.tsCharFound = true) (hlen : env.tsData.length = 4) :
    connectToServer s env = (negotiationResult s env (s.targetDevice.getD []), true) := by
  cases hd : decideRole (env.localUptime % U32) (tsUptime env.tsData) s.localMac
      (s.targetDevice.getD []) <;>
    simp [connectToServer, negotiationResult, hconn, hsvc, hc1, hc2, hc3, hlen, hd, applyRole]

lemma readBytes8_of_length (value mem : List Nat) (h : value.length = 8) :
    readBytes8 value mem = value := by
  unfold readBytes8
  rw [List.append_assoc, ← h, List.take_left]

lemma u32At_lt (bs : List Nat) (i : Nat) : u32At bs i < U32 := by
  unfold u32At le32 U32
  omega

/-- C1: when role negotiation runs in `connectToServer` with a 4-byte remote
timestamp, then with local uptime `Ul` read at the decision instant and remote
uptime `Ur` decoded from the read: `Ul > Ur` makes the node MASTER,
`Ul < Ur` makes it CLIENT, and on a tie the node with the lexically smaller
address becomes MASTER and otherwise CLIENT; in all three cases
`roleAssigned` becomes true. -/
theorem role_negotiation_follows_uptime_rule (s : NodeState) (env : ConnectEnv)
    (rm : Mac)
    (hconn : env.connectOk = true) (hsvc : env.serviceFound = true)
    (hc1 : env.counterCharFound = true) (hc2 : env.syncCharFound = true)
    (hc3 : env.tsCharFound = true) (hlen : env.tsData.length = 4)
    (htd : s.targetDevice = some rm) :
    (connectToServer s env).1.roleAssigned = true
    ∧ (env.localUptime % U32 > tsUptime env.tsData →
        (connectToServer s env).1.isMaster = true
        ∧ (connectToServer s env).1.isClient = false)
    ∧ (env.localUptime % U32 < tsUptime env.tsData →
        (connectToServer s env).1.isClient = true
        ∧ (connectToServer s env).1.isMaster = false)
    ∧ (env.localUptime % U32 = tsUptime env.tsData →
        (s.localMac < rm →
          (connectToServer s env).1.isMaster = true
          ∧ (connectToServer s env).1.isClient = false)
        ∧ (¬ s.localMac < rm →
          (connectToServer s env).1.isClient = true
          ∧ (connectToServer s env).1.isMaster = false)) := by
  have hgd : s.targetDevice.getD [] = rm := by simp [htd]
  rw [connectToServer_success s env hconn hsvc hc1 hc2 hc3 hlen, hgd]
  unfold negotiationResult
  cases hd : decideRole (env.localUptime % U32) (tsUptime env.tsData) s.localMac rm with
  | MASTER =>
    simp only [applyRole]
    unfold decideRole at hd
    refine ⟨rfl, fun _ => ⟨rfl, rfl⟩, fun hlt => ?_,
      fun heq => ⟨fun _ => ⟨rfl, rfl⟩, fun hnm => ?_⟩⟩
    · exfalso
      simp [Nat.lt_asymm hlt, hlt, Nat.lt_irrefl] at hd
    · exfalso
      simp [heq, Nat.lt_irrefl, hnm] at hd
  | CLIENT =>
    simp only [applyRole]
    unfold decideRole at hd
    refine ⟨rfl, fun hgt => ?_, fun _ => ⟨rfl, rfl⟩,
      fun heq => ⟨fun hm => ?_, fun _ => ⟨rfl, rfl⟩⟩⟩
    · exfalso
      simp [hgt] at hd
    · exfalso
      simp [heq, Nat.lt_irrefl, hm] at hd

/-- Concrete negotiation scenario: peer record held, all reads succeed, local
uptime 100 against remote uptime 0. -/
def c1state : NodeState :=
  { initialState [1] with targetDevice := some [2], doConnect := true }

/-- Environment for the concrete negotiation scenario of `c1state`. -/
def c1env : ConnectEnv :=
  { connectOk := true, serviceFound := true, counterCharFound := true,
    syncCharFound := true, tsCharFound := true, tsData := [0, 0, 0, 0],
    localUptime := 100 }

/-- Witness for C1: in the concrete scenario the longer-running node becomes
MASTER with `roleAssigned` set. -/
theorem role_negotiation_follows_uptime_rule_witness :
    (connectToServer c1state c1env).1.roleAssigned = true
    ∧ (connectToServer c1state c1env).1.isMaster = true
    ∧ (connectToServer c1state c1env).1.isClient = false := by
  have h := role_negotiation_follows_uptime_rule c1state c1env [2]
    rfl rfl rfl rfl rfl (by decide) rfl
  obtain ⟨h1, h2, -, -⟩ := h
  have hm := h2 (by decide)
  exact ⟨h1, hm.1, hm.2⟩

/-- C2: the role decision rule is antisymmetric — for any uptime pair and any
two distinct addresses, the rule seen from one node yields MASTER exactly when
the same rule seen from the peer yields CLIENT, so a negotiation in which both
sides apply the rule to the same uptime pair produces exactly one MASTER and
one CLIENT. -/
theorem decideRole_antisymmetric (u1 u2 : Nat) (a1 a2 : Mac) (h : a1 ≠ a2) :
    decideRole u1 u2 a1 a2 = Role.MASTER ↔ decideRole u2 u1 a2 a1 = Role.CLIENT := by
  unfold decideRole
  rcases Nat.lt_trichotomy u1 u2 with hu | hu | hu
  · simp [hu, Nat.lt_asymm hu, Nat.lt_irrefl]
  · subst hu
    simp only [gt_iff_lt, Nat.lt_irrefl, if_false]
    rcases lt_trichotomy a1 a2 with ha | ha | ha
    · simp [ha, lt_asymm ha]
    · exact absurd ha h
    · simp [ha, lt_asymm ha]
  · simp [hu, Nat.lt_asymm hu, Nat.lt_irrefl]

/-- Witness for C2 at equal uptimes and the concrete distinct addresses
`[1]` and `[2]`. -/
theorem decideRole_antisymmetric_witness :
    ([1] : Mac) ≠ [2]
    ∧ (decideRole 5 5 [1] [2] = Role.MASTER ↔ decideRole 5 5 [2] [1] = Role.CLIENT) :=
  ⟨by decide, decideRole_antisymmetric 5 5 [1] [2] (by decide)⟩

/-- A CLIENT in steady state with local counter 5. -/
def c3state : NodeState :=
  { initialState [1] with
      localCounter := 5, isClient := true, roleAssigned := true,
      clientConnected := true, pRemoteSyncChar := true }

/-- C3 counterexample: both adoption paths accept a MASTER value smaller than
the current local counter — the sync-write handler and the poll path each take
a CLIENT at counter 5 down to counter 3. -/
theorem client_adopts_smaller_counter :
    (syncOnWriteE c3state [3, 0, 0, 0, 0, 0, 0, 0] [] 1000).1.localCounter
        < c3state.localCounter
    ∧ (performSync c3state [3, 0, 0, 0]).localCounter < c3state.localCounter := by
  decide

/-- C3 (amended): every `updateCounter` tick increments the counter by exactly
one (mod `2 ^ 32`), but a CLIENT adopts the MASTER's value unconditionally:
the sync-write handler and the poll path both set `localCounter` to the
received value with no comparison against the current value, so the adopted
value can be smaller. -/
theorem tick_increments_and_adoption_is_unconditional (s : NodeState)
    (value mem rb : List Nat) (now : Nat)
    (hcc : s.clientConnected = true) (hsc : s.pRemoteSyncChar = true)
    (hra : s.roleAssigned = true) (hm : s.isMaster = false) (hc : s.isClient = true)
    (hrb : rb.length = 4) :
    (updateCounter s).localCounter = (s.localCounter + 1) % U32
    ∧ (syncOnWriteE s value mem now).1.localCounter = pktCounter (readBytes8 value mem)
    ∧ (performSync s rb).localCounter = u32At rb 0 := by
  refine ⟨rfl, rfl, ?_⟩
  by_cases hrc : u32At rb 0 = s.localCounter
  · simp [performSync, hcc, hsc, hra, hm, hc, hrb, hrc]
  · simp [performSync, hcc, hsc, hra, hm, hc, hrb, hrc]

/-- Witness for C3 (amended) at the concrete CLIENT state `c3state`. -/
theorem tick_increments_and_adoption_is_unconditional_witness :
    (updateCounter c3state).localCounter = (c3state.localCounter + 1) % U32
    ∧ (syncOnWriteE c3state [3, 0, 0, 0, 0, 0, 0, 0] [] 1000).1.localCounter
        = pktCounter (readBytes8 [3, 0, 0, 0, 0, 0, 0, 0] [])
    ∧ (performSync c3state [3, 0, 0, 0]).localCounter = u32At [3, 0, 0, 0] 0 :=
  tick_increments_and_adoption_is_unconditional c3state
    [3, 0, 0, 0, 0, 0, 0, 0] [] [3, 0, 0, 0] 1000 rfl rfl rfl rfl rfl rfl

/-- A standalone node with counter 42 and `lastCounterUpdate` 0. -/
def c4state : NodeState := { initialState [1] with localCounter := 42 }

/-- C4: the sync-write handler has no length check — a 4-byte write is not
discarded: the fixed 8-byte `memcpy` reads 4 bytes past the payload (here the
adjacent memory bytes `[7, 0, 0, 0]`) and both `localCounter` and
`lastCounterUpdate` are overwritten. -/
theorem short_sync_write_modifies_state :
    ([5, 0, 0, 0] : List Nat).length ≠ 8
    ∧ c4state.localCounter = 42
    ∧ (syncOnWriteE c4state [5, 0, 0, 0] [7, 0, 0, 0] 10000).1.localCounter = 5
    ∧ c4state.lastCounterUpdate = 0
    ∧ (syncOnWriteE c4state [5, 0, 0, 0] [7, 0, 0, 0] 10000).1.lastCounterUpdate = 9993 := by
  decide

/-- C5 counterexample: a stale packet (`Δ = 5000 > COUNTER_INTERVAL`) arriving
at `now = 10000` leaves `lastCounterUpdate = 5000`; the claimed clamp value
would be `10000 - (COUNTER_INTERVAL - 1) = 7001`. -/
theorem stale_sync_write_not_clamped :
    COUNTER_INTERVAL < pktDelta (readBytes8 [1, 0, 0, 0, 136, 19, 0, 0] [])
    ∧ (syncOnWriteE (initialState [1]) [1, 0, 0, 0, 136, 19, 0, 0] [] 10000).1.lastCounterUpdate
        = 5000
    ∧ (5000 : Nat) ≠ 10000 - (COUNTER_INTERVAL - 1) := by
  decide

/-- C5 (amended): the handler never clamps: for a stale 8-byte packet
(`Δ > COUNTER_INTERVAL`, with `Δ ≤ now < 2 ^ 32`) it still sets
`lastCounterUpdate := now - Δ`, which lies strictly before the clamp value
`now - (COUNTER_INTERVAL - 1)`, and it emits no warning effect. -/
theorem stale_sync_write_sets_unclamped_time (s : NodeState) (value mem : List Nat)
    (now : Nat) (hlen : value.length = 8)
    (hstale : COUNTER_INTERVAL < pktDelta value)
    (hdn : pktDelta value ≤ now) (hnow : now < U32) :
    (syncOnWriteE s value mem now).1.lastCounterUpdate = now - pktDelta value
    ∧ (syncOnWriteE s value mem now).1.lastCounterUpdate
        < now - (COUNTER_INTERVAL - 1) := by
  have hrb := readBytes8_of_length value mem hlen
  have hlt : pktDelta value < U32 := u32At_lt value 4
  have h1 : (syncOnWriteE s value mem now).1.lastCounterUpdate
      = (now % U32 + U32 - pktDelta value) % U32 := by
    simp [syncOnWriteE, hrb]
  rw [h1]
  have hU : U32 = 4294967296 := rfl
  have hC : COUNTER_INTERVAL = 3000 := rfl
  rw [hU] at hnow hlt ⊢
  rw [hC] at hstale ⊢
  omega

/-- Witness for C5 (amended) at the concrete stale packet of the
counterexample. -/
theorem stale_sync_write_sets_unclamped_time_witness :
    (syncOnWriteE (initialState [2]) [1, 0, 0, 0, 136, 19, 0, 0] [] 10000).1.lastCounterUpdate
        = 10000 - pktDelta [1, 0, 0, 0, 136, 19, 0, 0]
    ∧ (syncOnWriteE (initialState [2]) [1, 0, 0, 0, 136, 19, 0, 0] [] 10000).1.lastCounterUpdate
        < 10000 - (COUNTER_INTERVAL - 1) :=
  stale_sync_write_sets_unclamped_time (initialState [2]) [1, 0, 0, 0, 136, 19, 0, 0] []
    10000 (by decide) (by decide) (by decide) (by decide)

/-- C6: an 8-byte sync packet with `Δ ≤ COUNTER_INTERVAL` makes the handler set
`localCounter` to the packet counter and `lastCounterUpdate` to `now - Δ`, so
the loop's tick guard first becomes true at `now + (COUNTER_INTERVAL - Δ)`,
phase-aligning the next local tick with the MASTER's. -/
theorem sync_write_phase_aligns_next_tick (s : NodeState) (value mem : List Nat)
    (now : Nat) (hlen : value.length = 8)
    (hdelta : pktDelta value ≤ COUNTER_INTERVAL)
    (hdn : pktDelta value ≤ now) (hnow : now < U32) :
    (syncOnWriteE s value mem now).1.localCounter = pktCounter value
    ∧ (syncOnWriteE s value mem now).1.lastCounterUpdate = now - pktDelta value
    ∧ (∀ t, now - pktDelta value ≤ t → t < U32 →
        (loopTickFires t (now - pktDelta value) = true ↔
          now + (COUNTER_INTERVAL - pktDelta value) ≤ t)) := by
  have hrb := readBytes8_of_length value mem hlen
  have hlt : pktDelta value < U32 := u32At_lt value 4
  have hU : U32 = 4294967296 := rfl
  have hC : COUNTER_INTERVAL = 3000 := rfl
  refine ⟨by simp [syncOnWriteE, hrb], ?_, ?_⟩
  · have h1 : (syncOnWriteE s value mem now).1.lastCounterUpdate
        = (now % U32 + U32 - pktDelta value) % U32 := by
      simp [syncOnWriteE, hrb]
    rw [h1]
    rw [hU] at hnow hlt ⊢
    omega
  · intro t ht1 ht2
    simp only [loopTickFires, decide_eq_true_eq]
    rw [hU] at hnow hlt ht2 ⊢
    rw [hC] at hdelta ⊢
    omega

/-- The concrete sync packet of the C6 witness: counter 7, `Δ = 2000`. -/
def c6value : List Nat := [7, 0, 0, 0, 208, 7, 0, 0]

/-- Witness for C6: packet `(7, 2000)` at `now = 10000` sets the counter to 7,
`lastCounterUpdate` to 8000, and the tick guard fires at `t = 11000`. -/
theorem sync_write_phase_aligns_next_tick_witness :
    (syncOnWriteE (initialState [1]) c6value [] 10000).1.localCounter = 7
    ∧ (syncOnWriteE (initialState [1]) c6value [] 10000).1.lastCounterUpdate = 8000
    ∧ loopTickFires 11000 8000 = true := by
  have h := sync_write_phase_aligns_next_tick (initialState [1]) c6value [] 10000
    (by decide) (by decide) (by decide) (by decide)
  refine ⟨?_, ?_, ?_⟩
  · rw [h.1]
    decide
  · rw [h.2.1]
    decide
  · have h3 := (h.2.2 11000 (by decide) (by decide)).mpr (by decide)
    have he : (10000 : Nat) - pktDelta c6value = 8000 := by decide
    rw [he] at h3
    exact h3

end BLESync

namespace BLESync

/-- Environment for the C7 trace: all reads succeed, remote uptime 0, local
uptime 100, so the local node becomes MASTER. -/
def c7env : ConnectEnv :=
  { connectOk := true, serviceFound := true, counterCharFound := true,
    syncCharFound := true, tsCharFound := true, tsData := [0, 0, 0, 0],
    localUptime := 100 }

/-- After the advertisement callback stores the peer record. -/
def c7s1 : NodeState := (onResultE (initialState [1]) true [2]).1

/-- After the successful negotiation: MASTER with `clientConnected` set. -/
def c7s2 : NodeState := (connectToServer c7s1 c7env).1

/-- After the peer also connects inbound to the local server. -/
def c7s3 : NodeState := (serverOnConnectE c7s2 200).1

/-- After the inbound server connection drops while MASTER. -/
def c7s4 : NodeState := (serverOnDisconnectE c7s3 500 600).1

/-- C7 counterexample: the state reached when a MASTER loses its inbound
server connection still has `clientConnected = true` but `roleAssigned` has
been cleared, so `clientConnected` is not equivalent to `roleAssigned` in
every reachable state. -/
theorem session_without_role_reachable :
    Reachable c7s4 ∧ c7s4.clientConnected = true ∧ c7s4.roleAssigned = false := by
  refine ⟨?_, by decide, by decide⟩
  have h0 : Reachable (initialState [1]) := Reachable.init [1]
  have h1 : Reachable c7s1 := h0.step (Step.advertResult _ true [2])
  have h2 : Reachable c7s2 := h1.step (Step.connect _ c7env (by decide) (by decide))
  have h3 : Reachable c7s3 := h2.step (Step.serverConnect _ 200)
  exact h3.step (Step.serverDisconnect _ 500 600 (by decide))

/-- C7 (amended): the session/role equivalence holds in one direction only —
in every reachable state an assigned role implies `clientConnected`; the
converse fails at the counterexample state. -/
theorem role_assigned_implies_client_connected {s : NodeState} (h : Reachable s)
    (hr : s.roleAssigned = true) : s.clientConnected = true :=
  (inv_reachable h).2.2 hr

/-- Witness for C7 (amended) at the reachable post-negotiation state `c7s2`. -/
theorem role_assigned_implies_client_connected_witness :
    c7s2.clientConnected = true := by
  have h0 : Reachable (initialState [1]) := Reachable.init [1]
  have h1 : Reachable c7s1 := h0.step (Step.advertResult _ true [2])
  have h2 : Reachable c7s2 := h1.step (Step.connect _ c7env (by decide) (by decide))
  exact role_assigned_implies_client_connected h2 (by decide)

/-- C8 counterexample: the advertisement-result callback calls back into the
radio facade (stops the scanner) and blocks its caller for 1000 ms when the
local address is the smaller one. -/
theorem advert_callback_blocks_and_calls_facade :
    (onResultE (initialState [1]) true [2]).2 = [Effect.scanStop, Effect.delayMs 1000] := by
  decide

/-- C8 (amended): only the sync-write callback performs no facade call and no
delay; the server-connect callback writes a characteristic value, both
disconnect callbacks restart advertising from callback context, and the
advertisement callback stops the scanner and blocks for 1000 ms when the
local MAC is smaller than the peer's. -/
theorem callback_effect_profile (s : NodeState) (value mem : List Nat)
    (t j now : Nat) (rm : Mac)
    (hcc : s.clientConnected = false) (hlt : s.localMac < rm) :
    (syncOnWriteE s value mem t).2 = []
    ∧ (serverOnConnectE s now).2 = [Effect.setCharValue]
    ∧ (serverOnDisconnectE s j now).2 = [Effect.advertisingStart]
    ∧ (clientOnDisconnectE s j now).2 = [Effect.advertisingStart]
    ∧ (onResultE s true rm).2 = [Effect.scanStop, Effect.delayMs 1000] := by
  refine ⟨rfl, rfl, rfl, rfl, ?_⟩
  simp [onResultE, hcc, hlt]

/-- Witness for C8 (amended) at the initial state with peer address `[2]`. -/
theorem callback_effect_profile_witness :
    (syncOnWriteE (initialState [1]) [] [] 0).2 = []
    ∧ (serverOnConnectE (initialState [1]) 0).2 = [Effect.setCharValue]
    ∧ (serverOnDisconnectE (initialState [1]) 0 0).2 = [Effect.advertisingStart]
    ∧ (clientOnDisconnectE (initialState [1]) 0 0).2 = [Effect.advertisingStart]
    ∧ (onResultE (initialState [1]) true [2]).2 = [Effect.scanStop, Effect.delayMs 1000] :=
  callback_effect_profile (initialState [1]) [] [] 0 0 0 [2] rfl (by decide)

/-- A node holding a peer record with a pending connection attempt. -/
def c9state : NodeState :=
  { initialState [1] with targetDevice := some [2], doConnect := true }

/-- Environment in which the connect call itself fails. -/
def c9envFail : ConnectEnv :=
  { connectOk := false, serviceFound := false, counterCharFound := false,
    syncCharFound := false, tsCharFound := false, tsData := [], localUptime := 0 }

/-- Environment in which the whole negotiation succeeds. -/
def c9envOk : ConnectEnv :=
  { connectOk := true, serviceFound := true, counterCharFound := true,
    syncCharFound := true, tsCharFound := true, tsData := [0, 0, 0, 0],
    localUptime := 100 }

/-- C9 counterexample: `connectToServer` leaves the peer record held both when
it returns `false` (failed connect) and when negotiation succeeds — the record
is not freed on either exit. -/
theorem connectToServer_keeps_peer_record :
    ((connectToServer c9state c9envFail).2 = false
      ∧ (connectToServer c9state c9envFail).1.targetDevice = some [2])
    ∧ ((connectToServer c9state c9envOk).2 = true
      ∧ (connectToServer c9state c9envOk).1.targetDevice = some [2]) := by
  decide

/-- C9 (amended): `connectToServer` never frees the peer record — it is
unchanged on every exit; the record (a single optional slot, so at most one is
held) is freed instead by the client-disconnect callback, the loop's
connect-timeout path, and `resetConnectionState`. -/
theorem peer_record_lifecycle (s : NodeState) (env : ConnectEnv) (j now : Nat) :
    (connectToServer s env).1.targetDevice = s.targetDevice
    ∧ (clientOnDisconnectE s j now).1.targetDevice = none
    ∧ (connectAttemptTimeout s).targetDevice = none
    ∧ (resetConnectionState s).targetDevice = none := by
  refine ⟨?_, rfl, rfl, ?_⟩
  · cases hd : decideRole (env.localUptime % U32) (tsUptime env.tsData) s.localMac
        (s.targetDevice.getD []) <;>
      simp [connectToServer, connFail, applyRole, hd] <;> split_ifs <;> rfl
  · simp only [resetConnectionState]
    split <;> rfl

/-- C10: in every reachable state the role flags are consistent — `isMaster`
and `isClient` are never both set, and an unassigned role forces both clear;
every operation of the step relation preserves this. -/
theorem role_flags_consistent {s : NodeState} (h : Reachable s) :
    (s.isMaster && s.isClient) = false
    ∧ (s.roleAssigned = false → s.isMaster = false ∧ s.isClient = false) :=
  ⟨(inv_reachable h).1, (inv_reachable h).2.1⟩

/-- Witness for C10 at the initial state of a node with address `[3]`. -/
theorem role_flags_consistent_witness :
    ((initialState [3]).isMaster && (initialState [3]).isClient) = false
    ∧ ((initialState [3]).roleAssigned = false →
        (initialState [3]).isMaster = false ∧ (initialState [3]).isClient = false) :=
  role_flags_consistent (Reachable.init [3])

end BLESync
